import Mathlib

/-!
Verification of the scan-session controller of `scan_tui.py`.

The development shallowly embeds the pure and stateful parts of the
program that the specification talks about:

* `sanitize_prefix`, `safe_int`, `next_index` — the pure helper functions
  (source lines 132–165);
* `run_scan` — one scan cycle, `ScanTUI._run_scan` (lines 593–699), with
  all external effects (widget reads, the file system, `shlex.split`, the
  `scanimage` subprocess) supplied through an explicit per-cycle
  environment `ScanEnv`;
* `action_scan` / `scanLoop` — the serialization logic of
  `ScanTUI.action_scan` (lines 569–591).  Python's asyncio scheduler is
  cooperative and single threaded, and the only suspension point inside a
  scan cycle is the executor call, so concurrent `requestScan` calls are
  modelled as a count of requests that observe the held lock during each
  cycle.
-/

namespace ScanTui

/-! ### Character and string helpers (Python string semantics, ASCII) -/

/-- ASCII whitespace removed by Python `str.strip()` with no argument. -/
def isPyWS (c : Char) : Bool :=
  c = ' ' || c = '\t' || c = '\n' || c = '\r' || c = '\x0b' || c = '\x0c'

/-- the trim set of the final `strip("._-")` in the sanitizer. -/
def isTrimChar (c : Char) : Bool :=
  c = '.' || c = '_' || c = '-'

/-- Python `str.strip(chars)`: remove characters satisfying `p` from both
ends of the character list. -/
def stripBoth (p : Char → Bool) (l : List Char) : List Char :=
  List.rdropWhile p (l.dropWhile p)

/-- Python `str.strip()` on a whole string. -/
def pyStrip (s : String) : String :=
  String.mk (stripBoth isPyWS s.data)

/-- the character class `[A-Za-z0-9._-]` kept verbatim by the sanitizer. -/
def allowedChar (c : Char) : Bool :=
  c.isAlpha || c.isDigit || c = '.' || c = '_' || c = '-'

/-- one pass of `re.sub(r"[^A-Za-z0-9._-]+", "_", s)`: each maximal run of
disallowed characters becomes a single underscore.  The boolean records
whether the previous character was part of a disallowed run. -/
def collapseAux : Bool → List Char → List Char
  | _, [] => []
  | inBad, c :: cs =>
    if allowedChar c then c :: collapseAux false cs
    else if inBad then collapseAux true cs
    else '_' :: collapseAux true cs

/-- `re.sub(r"[^A-Za-z0-9._-]+", "_", s)` on a character list. -/
def collapseBad (l : List Char) : List Char := collapseAux false l

/-- `sanitize_prefix` from `scan_tui.py` lines 139–144: strip whitespace,
replace spaces and path separators by underscores, collapse disallowed
characters, and trim `.`, `_`, `-` from the ends. -/
def sanitize_prefix (value : String) : String :=
  let c1 := stripBoth isPyWS value.data
  let c2 := c1.map (fun c => if c = ' ' then '_' else c)
  let c3 := c2.map (fun c => if c = '/' then '_' else c)
  let c4 := c3.map (fun c => if c = '\\' then '_' else c)
  let c5 := collapseBad c4
  String.mk (stripBoth isTrimChar c5)

/-! ### Lemmas about the string helpers -/

lemma dropWhile_eq_self_of {p : Char → Bool} {l : List Char}
    (h : ∀ c ∈ l, p c = false) : l.dropWhile p = l := by
  cases l with
  | nil => rfl
  | cons c cs => simp [List.dropWhile_cons, h c (by simp)]

lemma stripBoth_eq_self_of {p : Char → Bool} {l : List Char}
    (h : ∀ c ∈ l, p c = false) : stripBoth p l = l := by
  unfold stripBoth
  rw [dropWhile_eq_self_of h]
  apply List.rdropWhile_eq_self_iff.mpr
  intro hl
  simp [h _ (List.getLast_mem hl)]

lemma stripBoth_subset {p : Char → Bool} {l : List Char} :
    ∀ c ∈ stripBoth p l, c ∈ l := by
  intro c hc
  have h1 : c ∈ l.dropWhile p :=
    (List.rdropWhile_prefix p (l.dropWhile p)).sublist.subset hc
  exact (List.dropWhile_suffix p).sublist.subset h1

lemma stripBoth_idem (p : Char → Bool) (l : List Char) :
    stripBoth p (stripBoth p l) = stripBoth p l := by
  unfold stripBoth
  cases hA : l.dropWhile p with
  | nil => simp [List.rdropWhile_nil, List.dropWhile_nil]
  | cons a as =>
    have hane : l.dropWhile p ≠ [] := by rw [hA]; simp
    have ha : p a = false := by
      have := List.head_dropWhile_not p l hane
      simp only [hA, List.head_cons] at this
      simpa using this
    cases hr : List.rdropWhile p (a :: as) with
    | nil => simp [hr, List.dropWhile_nil, List.rdropWhile_nil]
    | cons b bs =>
      have hba : b = a := by
        obtain ⟨t, ht⟩ := List.rdropWhile_prefix p (a :: as)
        rw [hr] at ht
        injection ht
      subst hba
      have hi := List.rdropWhile_idempotent p (b :: as)
      rw [hr] at hi
      rw [List.dropWhile_cons, ha]
      simpa using hi

lemma map_eq_self_of {f : Char → Char} {l : List Char}
    (h : ∀ c ∈ l, f c = c) : l.map f = l := by
  induction l with
  | nil => rfl
  | cons c cs ih =>
    simp only [List.map_cons, h c (by simp)]
    rw [ih (fun d hd => h d (by simp [hd]))]

lemma mem_collapseAux {l : List Char} :
    ∀ b, ∀ c ∈ collapseAux b l, allowedChar c = true := by
  induction l with
  | nil => intro b c hc; simp [collapseAux] at hc
  | cons d ds ih =>
    intro b c hc
    by_cases hd : allowedChar d
    · rw [collapseAux, if_pos hd] at hc
      rcases List.mem_cons.mp hc with h | h
      · rw [h]; exact hd
      · exact ih false c h
    · rw [collapseAux, if_neg hd] at hc
      by_cases hb : b
      · rw [if_pos hb] at hc
        exact ih true c hc
      · rw [if_neg hb] at hc
        rcases List.mem_cons.mp hc with h | h
        · rw [h]; decide
        · exact ih true c h

lemma collapseAux_eq_self_of {l : List Char}
    (h : ∀ c ∈ l, allowedChar c = true) : ∀ b, collapseAux b l = l := by
  induction l with
  | nil => intro b; rfl
  | cons d ds ih =>
    intro b
    rw [collapseAux, if_pos (h d (by simp))]
    rw [ih (fun c hc => h c (by simp [hc])) false]

lemma pyWS_not_allowed {c : Char} (h : isPyWS c = true) :
    allowedChar c = false := by
  simp only [isPyWS, Bool.or_eq_true, decide_eq_true_eq] at h
  rcases h with ((((h1 | h1) | h1) | h1) | h1) | h1 <;> subst h1 <;> decide

lemma allowed_not_pyWS {c : Char} (h : allowedChar c = true) :
    isPyWS c = false := by
  cases hws : isPyWS c
  · rfl
  · have h2 := pyWS_not_allowed hws
    rw [h] at h2
    cases h2

lemma allowed_ne {c x : Char} (h : allowedChar c = true)
    (hx : allowedChar x = false) : c ≠ x := by
  intro he; rw [he, hx] at h; cases h

/-- characters of a sanitized string are all in the allowed class. -/
lemma sanitize_prefix_allowed (s : String) :
    ∀ c ∈ ( sanitize_prefix s).data, allowedChar c = true := by
  intro c hc
  have h1 : c ∈ collapseBad
      ((((stripBoth isPyWS s.data).map (fun c => if c = ' ' then '_' else c)).map
          (fun c => if c = '/' then '_' else c)).map
            (fun c => if c = '\\' then '_' else c)) :=
    stripBoth_subset _ hc
  exact mem_collapseAux false c h1

/-- a string whose characters are all allowed and which is already trimmed
is a fixed point of the sanitizer. -/
lemma sanitize_prefix_eq_self (y : String)
    (hall : ∀ c ∈ y.data, allowedChar c = true)
    (htrim : stripBoth isTrimChar y.data = y.data) :
    sanitize_prefix y = y := by
  show String.mk (stripBoth isTrimChar (collapseBad
    ((((stripBoth isPyWS y.data).map (fun c => if c = ' ' then '_' else c)).map
        (fun c => if c = '/' then '_' else c)).map
          (fun c => if c = '\\' then '_' else c)))) = y
  rw [stripBoth_eq_self_of (fun c hc => allowed_not_pyWS (hall c hc))]
  rw [map_eq_self_of (fun c hc => if_neg (allowed_ne (hall c hc) (by decide)))]
  rw [map_eq_self_of (fun c hc => if_neg (allowed_ne (hall c hc) (by decide)))]
  rw [map_eq_self_of (fun c hc => if_neg (allowed_ne (hall c hc) (by decide)))]
  rw [show collapseBad y.data = collapseAux false y.data from rfl]
  rw [collapseAux_eq_self_of hall false]
  rw [htrim]

/-! ### Filename allocator: `next_index` (lines 151–165) -/

/-- strip a literal character sequence from the front of a list (both
already lowercased), as the `re.escape(prefix)` part of the pattern does. -/
def dropLit : List Char → List Char → Option (List Char)
  | [], s => some s
  | _ :: _, [] => none
  | p :: ps, c :: cs => if p = c then dropLit ps cs else none

/-- match the regex tail `.*\.{ext}$` (where `.` excludes newline and `ext`
is the literal, already lowercased extension) against a character list. -/
def tailDotExt (ext : List Char) : List Char → Bool
  | [] => false
  | c :: cs => (c == '.' && cs == ext) || (c != '\n' && tailDotExt ext cs)

/-- lowercase a character list (the effect of `re.IGNORECASE` on ASCII). -/
def lowerAll (l : List Char) : List Char := l.map Char.toLower

/-- the index captured by `^{prefix}_(\d{4}).*\.{ext}$` with `re.IGNORECASE`
when `name` matches, `none` otherwise. -/
def matchIndex (pfx ext name : String) : Option Nat :=
  match dropLit (lowerAll pfx.data) (lowerAll name.data) with
  | none => none
  | some rest =>
    match rest with
    | '_' :: d1 :: d2 :: d3 :: d4 :: r =>
      if d1.isDigit && d2.isDigit && d3.isDigit && d4.isDigit
          && tailDotExt (lowerAll ext.data) r then
        some ((((d1.toNat - 48) * 10 + (d2.toNat - 48)) * 10
          + (d3.toNat - 48)) * 10 + (d4.toNat - 48))
      else none
    | _ => none

/-- a directory entry as seen by `Path.iterdir`. -/
structure DirEntry where
  name : String
  isFile : Bool
deriving DecidableEq

/-- the body of the `for entry in output_dir.iterdir()` loop: skip
non-files, keep the running maximum of matched indices. -/
def scanStep (pfx ext : String) (m : Nat) (e : DirEntry) : Nat :=
  if e.isFile then
    match matchIndex pfx ext e.name with
    | some i => max m i
    | none => m
  else m

/-- `next_index` from `scan_tui.py` lines 151–165.  `dir = none` models a
directory that does not exist (`not output_dir.exists()`). -/
def next_index (pfx : String) (dir : Option (List DirEntry)) (ext : String) : Nat :=
  match dir with
  | none => 1
  | some entries => entries.foldl (scanStep pfx ext) 0 + 1

/-- the ASCII digit character for `d < 10`. -/
def digChar (d : Nat) : Char := Char.ofNat (48 + d)

/-- the four digit characters of `%04d` for `k ≤ 9999`. -/
def fourDigits (k : Nat) : List Char :=
  [digChar (k / 1000 % 10), digChar (k / 100 % 10),
   digChar (k / 10 % 10), digChar (k % 10)]

/-- the file name `{p}_{k:04d}.png` for `k ≤ 9999`. -/
def seqName (p : String) (k : Nat) : String :=
  p ++ String.mk ('_' :: fourDigits k) ++ ".png"

/-- a directory holding exactly the files `{p}_0001.png … {p}_{n:04d}.png`. -/
def seqFiles (p : String) (n : Nat) : List DirEntry :=
  (List.range n).map (fun i => ⟨seqName p (i + 1), true⟩)

/-! ### `safe_int` (lines 132–136) and Python `int` parsing -/

/-- digits of a Python integer literal after the first digit: decimal
digits with single underscores allowed between digits. -/
def digitsVal : Nat → List Char → Option Nat
  | acc, [] => some acc
  | acc, '_' :: c :: cs =>
    if c.isDigit then digitsVal (acc * 10 + (c.toNat - 48)) cs else none
  | acc, c :: cs =>
    if c.isDigit then digitsVal (acc * 10 + (c.toNat - 48)) cs else none

/-- Python `int(str)` on ASCII input: surrounding whitespace, an optional
sign, then digits with single underscores between digits; `none` models
the `ValueError` caught by `safe_int`. -/
def pyInt (s : String) : Option Int :=
  match stripBoth isPyWS s.data with
  | [] => none
  | '+' :: c :: cs =>
    if c.isDigit then (digitsVal (c.toNat - 48) cs).map Int.ofNat else none
  | '-' :: c :: cs =>
    if c.isDigit then (digitsVal (c.toNat - 48) cs).map (fun n => -(Int.ofNat n))
    else none
  | c :: cs =>
    if c.isDigit then (digitsVal (c.toNat - 48) cs).map Int.ofNat else none

/-- `safe_int` from `scan_tui.py` lines 132–136. -/
def safe_int (value : String) (default : Int) : Int :=
  (pyInt value).getD default

/-! ### Lemmas for the filename allocator -/

lemma digit_facts : ∀ d < 10, (digChar d).isDigit = true
    ∧ Char.toLower (digChar d) = digChar d ∧ (digChar d).toNat - 48 = d := by
  decide

lemma dropLit_append : ∀ (q r : List Char), dropLit q (q ++ r) = some r := by
  intro q
  induction q with
  | nil => intro r; rfl
  | cons c cs ih => intro r; simp [dropLit, ih]

lemma lowerAll_append (a b : List Char) :
    lowerAll (a ++ b) = lowerAll a ++ lowerAll b := by
  simp [lowerAll]

lemma lowerAll_fourDigits (k : Nat) :
    lowerAll (fourDigits k) = fourDigits k := by
  have h0 : k / 1000 % 10 < 10 := Nat.mod_lt _ (by norm_num)
  have h1 : k / 100 % 10 < 10 := Nat.mod_lt _ (by norm_num)
  have h2 : k / 10 % 10 < 10 := Nat.mod_lt _ (by norm_num)
  have h3 : k % 10 < 10 := Nat.mod_lt _ (by norm_num)
  simp [lowerAll, fourDigits, (digit_facts _ h0).2.1, (digit_facts _ h1).2.1,
    (digit_facts _ h2).2.1, (digit_facts _ h3).2.1]

lemma matchIndex_seqName (p : String) (k : Nat) (hk : k ≤ 9999) :
    matchIndex p "png" (seqName p k) = some k := by
  have hdata : (seqName p k).data
      = p.data ++ ('_' :: fourDigits k ++ ['.', 'p', 'n', 'g']) := by
    show (p ++ String.mk ('_' :: fourDigits k) ++ ".png").data = _
    rw [String.data_append, String.data_append]
    simp [fourDigits]
  have h0 : k / 1000 % 10 < 10 := Nat.mod_lt _ (by norm_num)
  have h1 : k / 100 % 10 < 10 := Nat.mod_lt _ (by norm_num)
  have h2 : k / 10 % 10 < 10 := Nat.mod_lt _ (by norm_num)
  have h3 : k % 10 < 10 := Nat.mod_lt _ (by norm_num)
  unfold matchIndex
  rw [hdata, lowerAll_append, dropLit_append]
  have hrest : lowerAll ('_' :: fourDigits k ++ ['.', 'p', 'n', 'g'])
      = '_' :: fourDigits k ++ ['.', 'p', 'n', 'g'] := by
    have hsplit : ('_' :: fourDigits k ++ ['.', 'p', 'n', 'g'])
        = ['_'] ++ fourDigits k ++ ['.', 'p', 'n', 'g'] := rfl
    rw [hsplit, lowerAll_append, lowerAll_append, lowerAll_fourDigits]
    rw [show lowerAll ['_'] = ['_'] from by decide]
    rw [show lowerAll ['.', 'p', 'n', 'g'] = ['.', 'p', 'n', 'g'] from by decide]
  rw [hrest]
  simp only [fourDigits, List.cons_append, List.nil_append]
  rw [if_pos]
  · have e0 := (digit_facts _ h0).2.2
    have e1 := (digit_facts _ h1).2.2
    have e2 := (digit_facts _ h2).2.2
    have e3 := (digit_facts _ h3).2.2
    rw [e0, e1, e2, e3]
    congr 1
    omega
  · simp [(digit_facts _ h0).1, (digit_facts _ h1).1, (digit_facts _ h2).1,
      (digit_facts _ h3).1]
    decide

lemma seqFiles_succ (p : String) (n : Nat) :
    seqFiles p (n + 1) = seqFiles p n ++ [⟨seqName p (n + 1), true⟩] := by
  unfold seqFiles
  rw [List.range_succ]
  simp

lemma seqFiles_fold (p : String) :
    ∀ n, n ≤ 9999 → (seqFiles p n).foldl (scanStep p "png") 0 = n := by
  intro n
  induction n with
  | zero => intro _; rfl
  | succ m ih =>
    intro hm
    rw [seqFiles_succ, List.foldl_append, ih (by omega)]
    show scanStep p "png" m ⟨seqName p (m + 1), true⟩ = m + 1
    unfold scanStep
    rw [if_pos rfl, matchIndex_seqName p (m + 1) hm]
    show max m (m + 1) = m + 1
    exact max_eq_right (by omega)

/-! ### The scan session controller -/

/-- outcome of the `subprocess.run(["scanimage", ...], timeout=120)` call
made through `asyncio.to_thread` (lines 643–650). -/
inductive ExecOutcome where
  | timeout : ExecOutcome
  | finished (returncode : Int) (stderr stdout : String) : ExecOutcome
deriving DecidableEq

/-- Python `value or default` on an optional string (`None` and `""` are
falsy). -/
def pyOr (v : Option String) (d : String) : String :=
  match v with
  | none => d
  | some s => if s = "" then d else s

/-- Python `"%04d" % n` for `n ≥ 0`: left-pad the decimal digits with
zeros to at least four characters. -/
def pad4 (n : Nat) : String :=
  let s := toString n
  if s.length < 4 then String.mk (List.replicate (4 - s.length) '0') ++ s else s

/-- Python `round(q, 3)` modelled on exact rationals. -/
def round3 (q : ℚ) : ℚ := (round (q * 1000) : ℤ) / 1000

/-- the environment of one scan cycle: every value `_run_scan` obtains
from outside the controller state (widget contents, the file system,
`shlex.split`, the executor, the clock).  `outputDir = none` covers both
an empty output-directory input and a failing `mkdir`;
`extraTokens = none` models a `ValueError` from `shlex.split`;
`dirListing = none` models a missing directory in `next_index`;
`statSize = none` models a failing `stat`; `historyOk = false` models the
swallowed exception in `_append_history_entry`. -/
structure ScanEnv where
  device : Option String
  prefixValue : String
  outputDir : Option String
  fmtValue : Option String
  resolutionValue : String
  modeValue : Option String
  sourceValue : Option String
  extraValue : String
  extraTokens : Option (List String)
  dirListing : Option (List DirEntry)
  exec : ExecOutcome
  statSize : Option Nat
  duration : ℚ
  timestamp : String
  historyOk : Bool
deriving DecidableEq

/-- one record appended by `_append_history_entry` (lines 885–900). -/
structure HistoryRecord where
  timestamp : String
  file : String
  size_bytes : Option Nat
  duration_seconds : ℚ
  device : Option String
  format : String
  resolution : String
  mode : String
  source : String
deriving DecidableEq

/-- the controller-owned mutable state of `ScanTUI` that the claims talk
about: the queued-scan flag, the session statistics, the error/result
fields and the history log (lines 291–306). -/
structure CState where
  scanQueued : Bool
  sessionScans : Nat
  sessionBytes : Nat
  sessionTotalSeconds : ℚ
  lastError : Option String
  lastSaved : Option String
  lastScanSeconds : Option ℚ
  lastScanTime : Option String
  history : List HistoryRecord
deriving DecidableEq

/-- `set_last_error` (lines 408–414), state field only; the label update
and log line are presentation. -/
def set_last_error (message : String) (st : CState) : CState :=
  { st with lastError := some message }

/-- `_run_scan` (lines 593–699): one scan cycle.  Returns the Python
function's boolean result together with the updated controller state. -/
def run_scan (env : ScanEnv) (st : CState) : Bool × CState :=
  match env.device with
  | none => (false, set_last_error "No scanner selected" st)
  | some device =>
    let pfx := sanitize_prefix env.prefixValue
    if pfx = "" then (false, set_last_error "Prefix empty" st)
    else
      match env.outputDir with
      | none => (false, set_last_error "Output directory error" st)
      | some outDir =>
        let fmt := (pyOr env.fmtValue "png").toLower
        let ext := if fmt = "jpeg" then "jpg" else fmt
        let resolution := safe_int (pyStrip env.resolutionValue) 300
        let mode := pyOr env.modeValue ""
        let source := pyOr env.sourceValue ""
        let extra := pyStrip env.extraValue
        let index := next_index pfx env.dirListing ext
        let filename := outDir ++ "/" ++ pfx ++ "_" ++ pad4 index ++ "." ++ ext
        let cmd0 := ["scanimage", "-d", device, "--format", fmt,
            "--output-file", filename]
          ++ (if resolution ≠ 0 then ["--resolution", toString resolution] else [])
          ++ (if mode ≠ "" then ["--mode", mode] else [])
          ++ (if source ≠ "" then ["--source", source] else [])
        let cmd : Option (List String) :=
          if extra ≠ "" then
            match env.extraTokens with
            | none => none
            | some toks => some (cmd0 ++ toks)
          else some cmd0
        match cmd with
        | none => (false, set_last_error "Extra options parse error" st)
        | some _fullCmd =>
          match env.exec with
          | .timeout => (false, set_last_error "Scan timed out" st)
          | .finished rc _stderrText _stdoutText =>
            if rc ≠ 0 then (false, set_last_error "Scan failed" st)
            else
              let st1 := { st with lastScanSeconds := some env.duration,
                                   lastSaved := some filename,
                                   lastScanTime := some env.timestamp }
              let st2 := set_last_error "-" st1
              let st3 := { st2 with sessionScans := st2.sessionScans + 1 }
              let st4 := match env.statSize with
                         | some n => { st3 with sessionBytes := st3.sessionBytes + n }
                         | none => st3
              let st5 := { st4 with
                sessionTotalSeconds := st4.sessionTotalSeconds + env.duration }
              let entry : HistoryRecord := {
                timestamp := env.timestamp
                file := filename
                size_bytes := env.statSize
                duration_seconds := round3 env.duration
                device := some device
                format := pyOr env.fmtValue "png"
                resolution := pyStrip env.resolutionValue
                mode := pyOr env.modeValue ""
                source := pyOr env.sourceValue "" }
              let st6 := if env.historyOk
                then { st5 with history := st5.history ++ [entry] } else st5
              (true, st6)

/-- the notice printed by `action_scan` when the lock is already held. -/
inductive ScanNotice where
  | queued
  | alreadyQueued
deriving DecidableEq

/-- lines 575–582: `action_scan` observing `_scan_lock.locked()`. -/
def requestScanWhileLocked (st : CState) : CState × ScanNotice :=
  if st.scanQueued then (st, .alreadyQueued)
  else ({ st with scanQueued := true }, .queued)

/-- `n` scan requests arriving while the lock is held, applied in order. -/
def applyRequests : Nat → CState → CState
  | 0, st => st
  | n + 1, st => applyRequests n (requestScanWhileLocked st).1

/-- lines 583–591: the `while True` loop run under `_scan_lock`.  Each
list element is one cycle's environment paired with the number of scan
requests that arrive during that cycle (at its executor suspension
point, the only point where other asyncio tasks can run).  Returns the
final state and the number of cycles executed; the trace list bounds the
number of cycles and is always long enough in the theorems below. -/
def scanLoop : CState → List (ScanEnv × Nat) → CState × Nat
  | st, [] => (st, 0)
  | st, (env, reqs) :: rest =>
    let r := run_scan env st
    let st2 := applyRequests reqs r.2
    if st2.scanQueued && r.1 then
      let next := scanLoop { st2 with scanQueued := false } rest
      (next.1, next.2 + 1)
    else ({ st2 with scanQueued := false }, 1)

/-- result classification of one `action_scan` invocation. -/
inductive ScanAction where
  | ignoredStage
  | ignoredFocus
  | notified (n : ScanNotice)
  | ran (cycles : Nat)
deriving DecidableEq

/-- lines 569–591: `action_scan`.  `lockLocked` states whether another
`action_scan` invocation currently holds `_scan_lock`; `envs` drives the
locked loop when the lock is acquired. -/
def action_scan (stage : String) (focusIsInput lockLocked : Bool)
    (envs : List (ScanEnv × Nat)) (st : CState) : CState × ScanAction :=
  if stage ≠ "scan" then (st, .ignoredStage)
  else if focusIsInput then (st, .ignoredFocus)
  else if lockLocked then
    let r := requestScanWhileLocked st
    (r.1, .notified r.2)
  else
    let r := scanLoop st envs
    (r.1, .ran r.2)

/-- the first failing validation of `_run_scan` (lines 594–638) in source
order, with the message passed to `set_last_error`; `none` when the cycle
reaches the executor. -/
def buildFailure (env : ScanEnv) : Option String :=
  if env.device = none then some "No scanner selected"
  else if sanitize_prefix env.prefixValue = "" then some "Prefix empty"
  else if env.outputDir = none then some "Output directory error"
  else if pyStrip env.extraValue ≠ "" ∧ env.extraTokens = none then
    some "Extra options parse error"
  else none

/-- Modelled from the spec (§4.3): the validation order `NoDeviceSelected`,
`EmptyPrefix`, `OutputDirUnavailable`, `MalformedExtraArgs`, first failure
wins, each mapped to the controller's error message for that kind. -/
def spec_firstFailure (env : ScanEnv) : Option String :=
  if env.device = none then some "No scanner selected"
  else if sanitize_prefix env.prefixValue = "" then some "Prefix empty"
  else if env.outputDir = none then some "Output directory error"
  else if pyStrip env.extraValue ≠ "" ∧ env.extraTokens = none then
    some "Extra options parse error"
  else none

/-! ### Concrete states and environments used by witnesses -/

/-- the controller state right after `__init__` (lines 291–306). -/
def stIdle : CState := {
  scanQueued := false
  sessionScans := 0
  sessionBytes := 0
  sessionTotalSeconds := 0
  lastError := none
  lastSaved := none
  lastScanSeconds := none
  lastScanTime := none
  history := [] }

/-- an environment in which a scan cycle fully succeeds. -/
def envOk : ScanEnv := {
  device := some "pixma:04A9176D_3EC9C8"
  prefixValue := "scan"
  outputDir := some "./scans"
  fmtValue := some "png"
  resolutionValue := "300"
  modeValue := some "Color"
  sourceValue := some "Flatbed"
  extraValue := ""
  extraTokens := none
  dirListing := some []
  exec := .finished 0 "" ""
  statSize := some 2048
  duration := 3 / 2
  timestamp := "2026-10-12 12:00:00"
  historyOk := true }

/-- like `envOk` but the executor exits non-zero with a device I/O error
on stderr. -/
def envIOFail : ScanEnv :=
  { envOk with exec := .finished 1 "Error during device I/O" "" }

/-- like `envOk` but the executor times out. -/
def envTimeout : ScanEnv :=
  { envOk with exec := .timeout }

/-- like `envOk` but no device is selected. -/
def envNoDevice : ScanEnv :=
  { envOk with device := none }

/-- like `envOk` but with no device selected AND a prefix that sanitizes
to the empty string — two validation failures apply at once. -/
def envTwoFailures : ScanEnv :=
  { envOk with device := none, prefixValue := "  ./ " }

/-! ### Characterization lemmas for `run_scan` -/

/-- whether a cycle reaches the executor and the executor succeeds; the
boolean result of `_run_scan` depends only on the environment. -/
def cycleOk (env : ScanEnv) : Bool :=
  env.device.isSome && ( sanitize_prefix env.prefixValue != "")
    && env.outputDir.isSome
    && (pyStrip env.extraValue == "" || env.extraTokens.isSome)
    && (match env.exec with
        | .timeout => false
        | .finished rc _ _ => rc == 0)

lemma buildFailure_none (env : ScanEnv) (hb : buildFailure env = none) :
    env.device ≠ none ∧ sanitize_prefix env.prefixValue ≠ "" ∧
    env.outputDir ≠ none ∧
    ¬(pyStrip env.extraValue ≠ "" ∧ env.extraTokens = none) := by
  unfold buildFailure at hb
  split_ifs at hb with h1 h2 h3 h4
  exact ⟨h1, h2, h3, h4⟩

lemma buildFailure_ne_dash {env : ScanEnv} {m : String}
    (h : buildFailure env = some m) : m ≠ "-" := by
  unfold buildFailure at h
  split_ifs at h <;> cases h <;> decide

lemma run_scan_validation_failure (env : ScanEnv) (st : CState) (m : String)
    (h : buildFailure env = some m) :
    run_scan env st = (false, set_last_error m st) := by
  unfold buildFailure at h
  split_ifs at h with h1 h2 h3 h4 <;> cases h
  · unfold run_scan
    rw [h1]
  · unfold run_scan
    cases hd : env.device with
    | none => exact absurd hd h1
    | some dev => simp only [if_pos h2]
  · unfold run_scan
    cases hd : env.device with
    | none => exact absurd hd h1
    | some dev =>
      simp only [if_neg h2, h3]
  · unfold run_scan
    cases hd : env.device with
    | none => exact absurd hd h1
    | some dev =>
      simp only [if_neg h2]
      cases ho : env.outputDir with
      | none => exact absurd ho h3
      | some od =>
        simp only [if_pos h4.1, h4.2]

lemma run_scan_exec_timeout (env : ScanEnv) (st : CState)
    (hb : buildFailure env = none) (he : env.exec = .timeout) :
    run_scan env st = (false, set_last_error "Scan timed out" st) := by
  obtain ⟨h1, h2, h3, h4⟩ := buildFailure_none env hb
  unfold run_scan
  cases hd : env.device with
  | none => exact absurd hd h1
  | some dev =>
    simp only [if_neg h2]
    cases ho : env.outputDir with
    | none => exact absurd ho h3
    | some od =>
      by_cases hx : pyStrip env.extraValue = ""
      · simp [hx, he]
      · cases ht : env.extraTokens with
        | none => exact absurd ⟨hx, ht⟩ h4
        | some toks => simp [hx, ht, he]

lemma run_scan_exec_nonzero (env : ScanEnv) (st : CState) (rc : Int)
    (e o : String) (hb : buildFailure env = none)
    (he : env.exec = .finished rc e o) (hrc : rc ≠ 0) :
    run_scan env st = (false, set_last_error "Scan failed" st) := by
  obtain ⟨h1, h2, h3, h4⟩ := buildFailure_none env hb
  unfold run_scan
  cases hd : env.device with
  | none => exact absurd hd h1
  | some dev =>
    simp only [if_neg h2]
    cases ho : env.outputDir with
    | none => exact absurd ho h3
    | some od =>
      by_cases hx : pyStrip env.extraValue = ""
      · simp [hx, he, hrc]
      · cases ht : env.extraTokens with
        | none => exact absurd ⟨hx, ht⟩ h4
        | some toks => simp [hx, ht, he, hrc]

lemma run_scan_success_fields (env : ScanEnv) (st : CState) (rc : Int)
    (e o : String) (hb : buildFailure env = none)
    (he : env.exec = .finished rc e o) (hrc : rc = 0) :
    (run_scan env st).1 = true ∧
    (run_scan env st).2.scanQueued = st.scanQueued ∧
    (run_scan env st).2.sessionScans = st.sessionScans + 1 := by
  obtain ⟨h1, h2, h3, h4⟩ := buildFailure_none env hb
  unfold run_scan
  cases hd : env.device with
  | none => exact absurd hd h1
  | some dev =>
    simp only [if_neg h2]
    cases ho : env.outputDir with
    | none => exact absurd ho h3
    | some od =>
      by_cases hx : pyStrip env.extraValue = ""
      · cases hss : env.statSize <;> by_cases hh : env.historyOk <;>
          simp [hx, he, hrc, hss, hh, set_last_error]
      · cases ht : env.extraTokens with
        | none => exact absurd ⟨hx, ht⟩ h4
        | some toks =>
          cases hss : env.statSize <;> by_cases hh : env.historyOk <;>
            simp [hx, ht, he, hrc, hss, hh, set_last_error]

lemma run_scan_fst (env : ScanEnv) (st : CState) :
    (run_scan env st).1 = cycleOk env := by
  cases hbf : buildFailure env with
  | some m =>
    rw [run_scan_validation_failure env st m hbf]
    unfold buildFailure at hbf
    unfold cycleOk
    split_ifs at hbf with h1 h2 h3 h4
    · simp [h1]
    · simp [h2]
    · simp [h3]
    · simp [h4.1, h4.2]
  | none =>
    obtain ⟨h1, h2, h3, h4⟩ := buildFailure_none env hbf
    cases he : env.exec with
    | timeout =>
      rw [run_scan_exec_timeout env st hbf he]
      simp [cycleOk, he]
    | finished rc e o =>
      by_cases hrc : rc = 0
      · rw [(run_scan_success_fields env st rc e o hbf he hrc).1]
        rcases Option.ne_none_iff_exists.mp h1 with ⟨dev, hdev⟩
        rcases Option.ne_none_iff_exists.mp h3 with ⟨od, hod⟩
        have hx4 : pyStrip env.extraValue = "" ∨ env.extraTokens ≠ none := by
          by_cases hx : pyStrip env.extraValue = ""
          · exact Or.inl hx
          · exact Or.inr (fun ht => h4 ⟨hx, ht⟩)
        rcases hx4 with hx | hx
        · simp [cycleOk, he, hrc, ← hdev, ← hod, h2, hx]
        · rcases Option.ne_none_iff_exists.mp hx with ⟨toks, htoks⟩
          simp [cycleOk, he, hrc, ← hdev, ← hod, h2, ← htoks]
      · rw [run_scan_exec_nonzero env st rc e o hbf he hrc]
        simp [cycleOk, he, hrc]

lemma run_scan_scanQueued (env : ScanEnv) (st : CState) :
    (run_scan env st).2.scanQueued = st.scanQueued := by
  cases hbf : buildFailure env with
  | some m => rw [run_scan_validation_failure env st m hbf]; rfl
  | none =>
    cases he : env.exec with
    | timeout => rw [run_scan_exec_timeout env st hbf he]; rfl
    | finished rc e o =>
      by_cases hrc : rc = 0
      · exact (run_scan_success_fields env st rc e o hbf he hrc).2.1
      · rw [run_scan_exec_nonzero env st rc e o hbf he hrc]; rfl

lemma run_scan_fail_state (env : ScanEnv) (st : CState)
    (h : (run_scan env st).1 = false) :
    ∃ m, (run_scan env st).2 = set_last_error m st ∧ m ≠ "-" := by
  cases hbf : buildFailure env with
  | some m =>
    exact ⟨m, by rw [run_scan_validation_failure env st m hbf],
      buildFailure_ne_dash hbf⟩
  | none =>
    cases he : env.exec with
    | timeout =>
      exact ⟨"Scan timed out", by rw [run_scan_exec_timeout env st hbf he],
        by decide⟩
    | finished rc e o =>
      by_cases hrc : rc = 0
      · rw [(run_scan_success_fields env st rc e o hbf he hrc).1] at h
        cases h
      · exact ⟨"Scan failed",
          by rw [run_scan_exec_nonzero env st rc e o hbf he hrc], by decide⟩

lemma run_scan_ok_scans (env : ScanEnv) (st : CState)
    (h : (run_scan env st).1 = true) :
    (run_scan env st).2.sessionScans = st.sessionScans + 1 := by
  cases hbf : buildFailure env with
  | some m =>
    rw [run_scan_validation_failure env st m hbf] at h
    simp at h
  | none =>
    cases he : env.exec with
    | timeout =>
      rw [run_scan_exec_timeout env st hbf he] at h
      simp at h
    | finished rc e o =>
      by_cases hrc : rc = 0
      · exact (run_scan_success_fields env st rc e o hbf he hrc).2.2
      · rw [run_scan_exec_nonzero env st rc e o hbf he hrc] at h
        simp at h

/-! ### Lemmas for the request queue and the locked loop -/

lemma requestScanWhileLocked_fst (st : CState) :
    (requestScanWhileLocked st).1 = { st with scanQueued := true } := by
  cases st with
  | mk q a b c d e f g hl =>
    by_cases h : q <;> simp [requestScanWhileLocked, h]

lemma applyRequests_eq (k : Nat) (st : CState) :
    applyRequests k st
      = if k = 0 then st else { st with scanQueued := true } := by
  induction k generalizing st with
  | zero => rfl
  | succ n ih =>
    rw [applyRequests, requestScanWhileLocked_fst, ih]
    by_cases hn : n = 0 <;> simp [hn]

/-- C9 core: a sanitized string is a fixed point of the sanitizer. -/
lemma sanitize_prefix_fixed (s : String) :
    sanitize_prefix ( sanitize_prefix s) = sanitize_prefix s := by
  apply sanitize_prefix_eq_self _ ( sanitize_prefix_allowed s)
  have hy : ( sanitize_prefix s).data
      = stripBoth isTrimChar (collapseBad
          ((((stripBoth isPyWS s.data).map (fun c => if c = ' ' then '_' else c)).map
              (fun c => if c = '/' then '_' else c)).map
                (fun c => if c = '\\' then '_' else c))) := rfl
  rw [hy, stripBoth_idem]

/-- the locked loop with `k ≠ 0` requests arriving during a successful
first cycle runs exactly one further cycle and stops. -/
lemma scanLoop_two_k (env1 env2 : ScanEnv) (st : CState) (k : Nat)
    (hk : k ≠ 0) (h1 : (run_scan env1 st).1 = true) :
    scanLoop st [(env1, k), (env2, 0)]
      = ({ (run_scan env2 { (run_scan env1 st).2 with scanQueued := false }).2
            with scanQueued := false }, 2) := by
  have hq2 : (run_scan env2
      { (run_scan env1 st).2 with scanQueued := false }).2.scanQueued = false := by
    rw [run_scan_scanQueued]
  simp only [scanLoop, applyRequests_eq, if_neg hk, h1, Bool.and_true,
    applyRequests]
  simp only [hq2, Bool.false_and, Bool.and_false]
  simp

/-- the locked loop stops after one cycle when nothing is queued. -/
lemma scanLoop_one_noqueue (env1 : ScanEnv) (st : CState)
    (h0 : st.scanQueued = false) :
    scanLoop st [(env1, 0)]
      = ({ (run_scan env1 st).2 with scanQueued := false }, 1) := by
  have hq : (run_scan env1 st).2.scanQueued = false := by
    rw [run_scan_scanQueued, h0]
  simp only [scanLoop, applyRequests, hq, Bool.false_and, Bool.and_false]
  simp

/-! ### Claim theorems -/

/-- C1 (amended): at most one scan cycle ever executes at a time — a
request arriving while the lock is held never runs a cycle, it only sets
or reports the queue flag — and two `requestScan()` calls in rapid
succession (the second arriving while the first cycle is in flight)
complete exactly two cycles, executed sequentially by the single locked
loop, provided the first cycle succeeds.  (When the first cycle fails the
queued request is discarded and only one cycle completes; see the
counterexample.) -/
theorem atMostOneScanSerialized (env1 env2 : ScanEnv) (st : CState)
    (h0 : st.scanQueued = false) (h1 : (run_scan env1 st).1 = true) :
    (action_scan "scan" false false [(env1, 1), (env2, 0)] st).2
      = ScanAction.ran 2 ∧
    (scanLoop st [(env1, 1), (env2, 0)]).1.scanQueued = false ∧
    (∀ (st2 : CState) (envs : List (ScanEnv × Nat)),
      (action_scan "scan" false true envs st2).2
        = ScanAction.notified (requestScanWhileLocked st2).2) := by
  have h := scanLoop_two_k env1 env2 st 1 (by decide) h1
  refine ⟨?_, ?_, ?_⟩
  · simp [action_scan, h]
  · rw [h]
  · intro st2 envs
    simp [action_scan]

/-- C1 counterexample: the claim as stated fails — with the second request
arriving while the first cycle waits on the executor and that cycle then
failing (non-zero exit), only ONE cycle completes, not two: the queued
request is discarded. -/
theorem twoRequestsOneCycleOnFailure :
    (scanLoop stIdle [(envIOFail, 1), (envOk, 0)]).2 = 1 ∧
    ¬ (scanLoop stIdle [(envIOFail, 1), (envOk, 0)]).2 = 2 :=
  ⟨by decide, by decide⟩

/-- C1 witness: with a succeeding first cycle the amended theorem applies
and two cycles run. -/
theorem atMostOneScanSerialized_witness :
    (run_scan envOk stIdle).1 = true ∧
    (action_scan "scan" false false [(envOk, 1), (envOk, 0)] stIdle).2
      = ScanAction.ran 2 := by
  have h := atMostOneScanSerialized envOk envOk stIdle rfl (by decide)
  exact ⟨by decide, h.1⟩

/-- C2: when a cycle succeeds with the queue flag set, the loop clears the
flag and runs exactly one further cycle before releasing the lock; with
the flag clear it releases the lock immediately — a queued request is
honored exactly once. -/
theorem queuedRequestHonoredOnce (env1 env2 : ScanEnv) (st : CState)
    (h0 : st.scanQueued = false) (h1 : (run_scan env1 st).1 = true) :
    scanLoop st [(env1, 1), (env2, 0)]
      = ({ (run_scan env2 { (run_scan env1 st).2 with scanQueued := false }).2
            with scanQueued := false }, 2) ∧
    scanLoop st [(env1, 0)]
      = ({ (run_scan env1 st).2 with scanQueued := false }, 1) :=
  ⟨scanLoop_two_k env1 env2 st 1 (by decide) h1,
   scanLoop_one_noqueue env1 st h0⟩

/-- C2 witness at a concrete succeeding environment. -/
theorem queuedRequestHonoredOnce_witness :
    stIdle.scanQueued = false ∧ (run_scan envOk stIdle).1 = true ∧
    (scanLoop stIdle [(envOk, 1), (envOk, 0)]).2 = 2 := by
  have h := queuedRequestHonoredOnce envOk envOk stIdle rfl (by decide)
  exact ⟨rfl, by decide, by rw [h.1]⟩

/-- C3 (amended): after an executor timeout the controller still releases
the lock and resumes normal operation (the cycle ends, the statistics are
untouched and lastError reads "Scan timed out"), but a scan request queued
while the timed-out scan ran is discarded — the queue flag is cleared
without executing the queued request. -/
theorem timeoutReleasesLockDropsQueued (env : ScanEnv) (st : CState)
    (reqs : Nat) (rest : List (ScanEnv × Nat))
    (hb : buildFailure env = none) (he : env.exec = .timeout) :
    (scanLoop st ((env, reqs) :: rest)).2 = 1 ∧
    (scanLoop st ((env, reqs) :: rest)).1.scanQueued = false ∧
    (scanLoop st ((env, reqs) :: rest)).1.sessionScans = st.sessionScans ∧
    (scanLoop st ((env, reqs) :: rest)).1.lastError = some "Scan timed out" := by
  have h := run_scan_exec_timeout env st hb he
  simp only [scanLoop, h, Bool.and_false]
  rw [applyRequests_eq]
  by_cases hr : reqs = 0 <;> simp [hr, set_last_error]

/-- C3 counterexample: the claim as stated fails — a request queued during
a timed-out scan is not executed afterwards: the loop ends after the one
timed-out cycle, the queue flag is cleared and no scan is recorded. -/
theorem queuedRequestDroppedAfterTimeout :
    (scanLoop stIdle [(envTimeout, 1), (envOk, 0)]).2 = 1 ∧
    (scanLoop stIdle [(envTimeout, 1), (envOk, 0)]).1.scanQueued = false ∧
    (scanLoop stIdle [(envTimeout, 1), (envOk, 0)]).1.sessionScans = 0 :=
  ⟨by decide, by decide, by decide⟩

/-- C3 witness for the amended theorem at a concrete timing-out trace. -/
theorem timeoutReleasesLockDropsQueued_witness :
    buildFailure envTimeout = none ∧
    (scanLoop stIdle [(envTimeout, 1), (envOk, 0)]).1.lastError
      = some "Scan timed out" := by
  have h := timeoutReleasesLockDropsQueued envTimeout stIdle 1 [(envOk, 0)]
    (by decide) (by decide)
  exact ⟨by decide, h.2.2.2⟩

/-- C4: the queue is a single boolean slot — a further request while one
scan is active and one is already queued is a no-op beyond the "already
queued" notice — and any number `k ≠ 0` of requests during a successful
cycle still yields exactly two cycles and exactly two statistics
increments. -/
theorem singleQueueSlotNoOp (env1 env2 : ScanEnv) (st : CState) (k : Nat)
    (h0 : st.scanQueued = false) (hk : k ≠ 0)
    (h1 : (run_scan env1 st).1 = true) (h2 : cycleOk env2 = true) :
    (∀ s : CState, s.scanQueued = true →
      requestScanWhileLocked s = (s, ScanNotice.alreadyQueued)) ∧
    (scanLoop st [(env1, k), (env2, 0)]).2 = 2 ∧
    (scanLoop st [(env1, k), (env2, 0)]).1.sessionScans
      = st.sessionScans + 2 := by
  have h := scanLoop_two_k env1 env2 st k hk h1
  refine ⟨fun s hs => by simp [requestScanWhileLocked, hs], by rw [h], ?_⟩
  rw [h]
  have e2 : (run_scan env2
      { (run_scan env1 st).2 with scanQueued := false }).1 = true := by
    rw [run_scan_fst]; exact h2
  have i2 := run_scan_ok_scans env2 _ e2
  have i1 := run_scan_ok_scans env1 st h1
  show (run_scan env2
    { (run_scan env1 st).2 with scanQueued := false }).2.sessionScans
      = st.sessionScans + 2
  rw [i2]
  show (run_scan env1 st).2.sessionScans + 1 = st.sessionScans + 2
  rw [i1]

/-- C4 witness: three requests in rapid succession (one starting the loop,
two arriving during the first cycle) run exactly two cycles and count
exactly two scans. -/
theorem singleQueueSlotNoOp_witness :
    cycleOk envOk = true ∧
    (scanLoop stIdle [(envOk, 2), (envOk, 0)]).2 = 2 ∧
    (scanLoop stIdle [(envOk, 2), (envOk, 0)]).1.sessionScans = 2 := by
  have h := singleQueueSlotNoOp envOk envOk stIdle 2 rfl (by decide)
    (by decide) (by decide)
  exact ⟨by decide, h.2.1, h.2.2⟩

/-- C5: every failed scan cycle — no device, empty sanitized prefix,
output-directory failure, malformed extra arguments, executor timeout or
non-zero exit — leaves the session statistics (count, bytes, seconds) and
the history untouched and sets lastError to an error message. -/
theorem failedCycleLeavesStatsUnchanged (env : ScanEnv) (st : CState)
    (h : (run_scan env st).1 = false) :
    (run_scan env st).2.sessionScans = st.sessionScans ∧
    (run_scan env st).2.sessionBytes = st.sessionBytes ∧
    (run_scan env st).2.sessionTotalSeconds = st.sessionTotalSeconds ∧
    (run_scan env st).2.history = st.history ∧
    ∃ m, (run_scan env st).2.lastError = some m ∧ m ≠ "-" := by
  obtain ⟨m, hm, hne⟩ := run_scan_fail_state env st h
  rw [hm]
  exact ⟨rfl, rfl, rfl, rfl, m, rfl, hne⟩

/-- C5 witness at a cycle failing for want of a selected device. -/
theorem failedCycleLeavesStatsUnchanged_witness :
    (run_scan envNoDevice stIdle).1 = false ∧
    (run_scan envNoDevice stIdle).2.sessionScans = stIdle.sessionScans ∧
    (run_scan envNoDevice stIdle).2.history = stIdle.history := by
  have h : (run_scan envNoDevice stIdle).1 = false := by decide
  have h2 := failedCycleLeavesStatsUnchanged envNoDevice stIdle h
  exact ⟨h, h2.1, h2.2.2.2.1⟩

/-- C6 (amended): when the job builds and the executor exits non-zero,
lastError becomes the fixed string "Scan failed" (the stderr text is only
logged), the statistics and history are unchanged, and the locked loop
releases after this one cycle. -/
theorem nonzeroExitSetsScanFailed (env : ScanEnv) (st : CState) (rc : Int)
    (e o : String) (hb : buildFailure env = none)
    (he : env.exec = .finished rc e o) (hrc : rc ≠ 0) :
    run_scan env st = (false, set_last_error "Scan failed" st) ∧
    (run_scan env st).2.sessionScans = st.sessionScans ∧
    (run_scan env st).2.history = st.history ∧
    (scanLoop st [(env, 0)]).2 = 1 := by
  have h := run_scan_exec_nonzero env st rc e o hb he hrc
  refine ⟨h, by rw [h]; rfl, by rw [h]; rfl, ?_⟩
  simp only [scanLoop, h, Bool.and_false, applyRequests]
  simp

/-- C6 counterexample: the claim as stated fails — with the executor
exiting non-zero and stderr "Error during device I/O", lastError is the
fixed string "Scan failed", not the stderr text. -/
theorem lastErrorIsNotStderrText :
    (run_scan envIOFail stIdle).2.lastError = some "Scan failed" ∧
    ¬ (run_scan envIOFail stIdle).2.lastError
        = some "Error during device I/O" :=
  ⟨by decide, by decide⟩

/-- C6 witness for the amended theorem at the device-I/O-error environment. -/
theorem nonzeroExitSetsScanFailed_witness :
    buildFailure envIOFail = none ∧
    run_scan envIOFail stIdle = (false, set_last_error "Scan failed" stIdle) ∧
    (scanLoop stIdle [(envIOFail, 0)]).2 = 1 := by
  have h := nonzeroExitSetsScanFailed envIOFail stIdle 1
    "Error during device I/O" "" (by decide) (by decide) (by decide)
  exact ⟨by decide, h.1, h.2.2.2⟩

/-- C7: validation failures are reported first-failure-wins in the order
NoDeviceSelected, EmptyPrefix, OutputDirUnavailable, MalformedExtraArgs:
whenever the spec-side order function reports a failure message, the cycle
fails with exactly that message and changes nothing else. -/
theorem validationOrderFirstFailure (env : ScanEnv) (st : CState)
    (m : String) (h : spec_firstFailure env = some m) :
    run_scan env st = (false, set_last_error m st) := by
  have hb : buildFailure env = some m := h
  exact run_scan_validation_failure env st m hb

/-- C7 witness: with no device selected AND an empty sanitized prefix both
applying, the first failure in the order wins. -/
theorem validationOrderFirstFailure_witness :
    spec_firstFailure envTwoFailures = some "No scanner selected" ∧
    sanitize_prefix envTwoFailures.prefixValue = "" ∧
    run_scan envTwoFailures stIdle
      = (false, set_last_error "No scanner selected" stIdle) := by
  refine ⟨by decide, by decide, ?_⟩
  exact validationOrderFirstFailure envTwoFailures stIdle
    "No scanner selected" (by decide)

/-- C8: nextIndex returns 38 for a directory holding exactly
{p}_0001.png … {p}_0037.png, and 1 for a missing or empty directory. -/
theorem nextIndexSequentialFiles (p : String) :
    next_index p (some (seqFiles p 37)) "png" = 38 ∧
    next_index p none "png" = 1 ∧
    next_index p (some []) "png" = 1 := by
  refine ⟨?_, rfl, rfl⟩
  show (seqFiles p 37).foldl (scanStep p "png") 0 + 1 = 38
  rw [seqFiles_fold p 37 (by norm_num)]

/-- C9: prefix sanitization is idempotent. -/
theorem sanitizeIdempotent (s : String) :
    sanitize_prefix ( sanitize_prefix s) = sanitize_prefix s :=
  sanitize_prefix_fixed s

/-- C10: a resolution string that does not parse as a Python integer makes
`safe_int` fall back to the default 300, and the resolution value never
influences whether a scan cycle runs or succeeds. -/
theorem malformedResolutionNeverBlocksScan (s : String) (env : ScanEnv)
    (st : CState) (h : pyInt s = none) :
    safe_int s 300 = 300 ∧
    (run_scan { env with resolutionValue := s } st).1
      = (run_scan env st).1 := by
  constructor
  · unfold safe_int
    rw [h]
    rfl
  · rw [run_scan_fst, run_scan_fst]
    rfl

/-- C10 witness at the unparsable resolution string "abc". -/
theorem malformedResolutionNeverBlocksScan_witness :
    pyInt "abc" = none ∧ safe_int "abc" 300 = 300 ∧
    (run_scan { envOk with resolutionValue := "abc" } stIdle).1
      = (run_scan envOk stIdle).1 := by
  have h := malformedResolutionNeverBlocksScan "abc" envOk stIdle (by decide)
  exact ⟨by decide, h.1, h.2⟩

end ScanTui
